import Mathlib

/-!
Verification development for the Study Pal turn-orchestration engine.

Shallow embedding of the core orchestration code:
* `src/core/workflow_state.py`   — the shared `StudyPalState` record,
* `src/core/workflow_nodes.py`   — the five graph nodes and their routing
  functions, including the tutoring exit-intent detector,
* `src/core/workflow_graph.py`   — the compiled graph and its conditional
  edges, executed per external turn,
* `src/agents/scheduler_agent.py` — the Pomodoro plan builder.

External collaborators (retrieval, the chat model, the weakness detector,
calendar sync) are modelled as an environment of call outcomes; everything
the orchestration core itself computes (keyword tests, the time regex,
branch structure, state patches, the Pomodoro loop) is translated directly
from the source.  Python's `str.lower`/`strip`/`split` are modelled with
their Lean counterparts, which agree on the ASCII text the code handles.
-/

namespace StudyPal

/-- Characters Python's `str.split()` / `\s` treat as separators
(the ASCII fragment that can occur in the embedded vocabularies). -/
def isWsChar (c : Char) : Bool :=
  c = ' ' || c = '\t' || c = '\n' || c = '\r'

/-- `l1` is an initial segment of `l2` (used to implement substring search). -/
def leadMatch : List Char → List Char → Bool
  | [], _ => true
  | _ :: _, [] => false
  | a :: as, b :: bs => a == b && leadMatch as bs

/-- `needle` occurs contiguously in `hay` (Python's `needle in hay` on text). -/
def hasSub (needle : List Char) : List Char → Bool
  | [] => needle.isEmpty
  | c :: rest => leadMatch needle (c :: rest) || hasSub needle rest

/-- Python `needle in hay` for strings. -/
def substrOf (needle hay : String) : Bool :=
  hasSub needle.data hay.data

/-- Python `str.lower()` (ASCII fragment, which is all the vocabularies use). -/
def pyLower (s : String) : String :=
  String.mk (s.data.map Char.toLower)

/-- Python `str.upper()` (ASCII fragment). -/
def pyUpper (s : String) : String :=
  String.mk (s.data.map Char.toUpper)

/-- Python `str.strip()` (ASCII whitespace). -/
def pyStrip (s : String) : String :=
  String.mk (((s.data.dropWhile isWsChar).reverse.dropWhile isWsChar).reverse)

/-- Python `str.endswith(suffix)`. -/
def pyEndsWith (s suffix : String) : Bool :=
  leadMatch suffix.data.reverse s.data.reverse

/-- `_contains_any` (workflow_nodes.py): some keyword occurs in `text.lower()`. -/
def containsAny (text : String) (keywords : List String) : Bool :=
  keywords.any (fun k => substrOf k (pyLower text))

/-- Python `str.split()` with no argument: split on whitespace runs,
dropping empty pieces (`acc` holds the current word, reversed). -/
def splitWsAux : List Char → List Char → List String
  | [], acc => if acc.isEmpty then [] else [String.mk acc.reverse]
  | c :: rest, acc =>
    if isWsChar c then
      (if acc.isEmpty then [] else [String.mk acc.reverse]) ++ splitWsAux rest []
    else
      splitWsAux rest (c :: acc)

/-- Python `str.split()` with no argument. -/
def splitWs (s : String) : List String :=
  splitWsAux s.data []

/-- A conversation message (LangChain `HumanMessage` / `AIMessage`; only the
role and content are read by the orchestration core). -/
inductive Msg where
  | human (content : String)
  | ai (content : String)
deriving DecidableEq, Repr

def Msg.content : Msg → String
  | .human s => s
  | .ai s => s

def Msg.isHuman : Msg → Bool
  | .human _ => true
  | .ai _ => false

/-- `_get_last_human_message`: the most recent human message, if any. -/
def lastHumanMsg (messages : List Msg) : Option Msg :=
  messages.reverse.find? Msg.isHuman

/-- Python `xs[-n:]`. -/
def takeLast (n : Nat) (xs : List Msg) : List Msg :=
  xs.drop (xs.length - n)

/-- One entry of a Pomodoro plan: the source builds dicts with a `"type"` key
of `"study"` or `"break"`.  Clock times are minutes from midnight; the
source's `"HH:MM"` strings and ISO datetimes are rendered from these.
Break entries carry no subject/task in the source; here those fields
default to `""`. -/
structure Session where
  kind : String
  subject : String := ""
  task : String := ""
  startM : Nat
  endM : Nat
  durationNote : Option String := none
deriving DecidableEq, Repr

/-- A weak point from the weakness analyzer (`topic` + `difficulty_level`
are the only fields the orchestration core reads). -/
structure WeakPoint where
  topic : String
  difficulty_level : String
deriving DecidableEq, Repr

/-- The schedule dict returned by `SchedulerAgent.generate_schedule`
(the `preferences` sub-dict is not read again by the workflow nodes). -/
structure Schedule where
  sessions : List Session
  based_on_weak_points : Bool := false
deriving DecidableEq, Repr

/-- Scheduling preferences as produced by `_collect_preferences` (the
LLM/heuristic extraction step, an external collaborator): start and end of
the availability window in minutes from midnight, plus the subject list. -/
structure Prefs where
  start_time : Nat
  end_time : Nat
  subjects : List String
deriving DecidableEq, Repr

def DEFAULT_POMODORO_MINUTES : Nat := 25

def DEFAULT_BREAK_MINUTES : Nat := 5

def task_templates : List String :=
  ["Learn core concepts", "Practice exercises", "Review and reinforce",
   "Work on problem sets", "Deep dive practice", "Master fundamentals",
   "Apply concepts", "Quiz yourself"]

/-- `SchedulerAgent._generate_task_description`. -/
def generate_task_description (subject : String) (session_number : Nat) : String :=
  let template := task_templates.getD ((session_number - 1) % task_templates.length) ""
  template ++ " - " ++ subject

/-- `session_count_per_subject.get(subject, 0)`. -/
def countOf (counts : List (String × Nat)) (subject : String) : Nat :=
  match counts.find? (fun p => p.1 == subject) with
  | some p => p.2
  | none => 0

/-- Store `count + 1` back into the per-subject session counter. -/
def bumpCount (counts : List (String × Nat)) (subject : String) : List (String × Nat) :=
  (subject, countOf counts subject + 1) :: counts

/-- The `while current < end` loop of `_build_pomodoro_plan`, with the
default Pomodoro (25) and break (5) lengths used by the workflow nodes.
`fuel` only bounds the iteration count: each recursive step advances
`current` by 30 minutes, so the fuel passed by `build_pomodoro_plan`
(`end + 1`) is never exhausted.  The subject lookup
`subjects[i % len(subjects)]` is total here via `getD`; the source raises
on an empty subject list, which its callers rule out. -/
def pomodoroLoop (subjects : List String) (endT : Nat) :
    Nat → Nat → Nat → List (String × Nat) → List Session
  | 0, _, _, _ => []
  | fuel + 1, current, subjectIndex, counts =>
    if current < endT then
      if current + DEFAULT_POMODORO_MINUTES ≤ endT then
        let blockEnd := current + DEFAULT_POMODORO_MINUTES
        let subject := subjects.getD (subjectIndex % subjects.length) ""
        let counts1 := bumpCount counts subject
        let sessionNum := countOf counts1 subject
        let study : Session :=
          { kind := "study", subject := subject,
            task := generate_task_description subject sessionNum,
            startM := current, endM := blockEnd }
        if blockEnd + DEFAULT_BREAK_MINUTES ≤ endT then
          let breakEnd := blockEnd + DEFAULT_BREAK_MINUTES
          study :: { kind := "break", startM := blockEnd, endM := breakEnd } ::
            pomodoroLoop subjects endT fuel breakEnd (subjectIndex + 1) counts1
        else
          [study]
      else
        let remaining := endT - current
        if 10 ≤ remaining then
          let subject := subjects.getD (subjectIndex % subjects.length) ""
          let counts1 := bumpCount counts subject
          let sessionNum := countOf counts1 subject
          [{ kind := "study", subject := subject,
             task := generate_task_description subject sessionNum,
             startM := current, endM := endT,
             durationNote := some (toString remaining ++ " min session") }]
        else []
    else []

/-- `SchedulerAgent._build_pomodoro_plan` (default Pomodoro/break lengths):
the session list, or the message of the `ValueError` the source raises. -/
def build_pomodoro_plan (preferences : Prefs) : Except String (List Session) :=
  if preferences.end_time ≤ preferences.start_time then
    .error "End time must be after start time."
  else
    let sessions := pomodoroLoop preferences.subjects preferences.end_time
      (preferences.end_time + 1) preferences.start_time 0 []
    if sessions.isEmpty then
      .error "No Pomodoro blocks fit within the provided availability window."
    else
      .ok sessions

/-- `SchedulerAgent._prioritize_weak_topics`: severe topics first, then
moderate, then mild, then the user's own subjects, deduplicated.  (The
source also records bookkeeping keys `weak_points_prioritized`,
`severe_topics`, `moderate_topics` in the dict; nothing reads them.) -/
def prioritize_weak_topics (preferences : Prefs) (weak_points : List WeakPoint) : Prefs :=
  let addNew : List String → List String → List String := fun acc topics =>
    topics.foldl (fun acc t => if acc.contains t then acc else acc ++ [t]) acc
  let severe := (weak_points.filter (fun wp => wp.difficulty_level == "severe")).map WeakPoint.topic
  let moderate := (weak_points.filter (fun wp => wp.difficulty_level == "moderate")).map WeakPoint.topic
  let mild := (weak_points.filter (fun wp => wp.difficulty_level == "mild")).map WeakPoint.topic
  let prioritized := addNew (addNew (addNew (addNew [] severe) moderate) mild) preferences.subjects
  { preferences with
    subjects := if prioritized.isEmpty then preferences.subjects else prioritized }

/-- `SchedulerAgent.generate_schedule` after preference extraction: the
extraction of `preferences` from free text is the external LLM/heuristic
collaborator, so its output is the input here.  `recommendations = some l`
models a `SessionRecommendations` whose `weak_points` list is `l`. -/
def generate_schedule (preferences : Prefs)
    (recommendations : Option (List WeakPoint)) : Except String Schedule :=
  let prefs :=
    match recommendations with
    | some wps => if wps.isEmpty then preferences else prioritize_weak_topics preferences wps
    | none => preferences
  match build_pomodoro_plan prefs with
  | .error e => .error e
  | .ok sessions =>
    .ok { sessions := sessions,
          based_on_weak_points :=
            match recommendations with
            | some wps => !wps.isEmpty
            | none => false }

/-- `StudyPalState` (workflow_state.py).  The opaque collaborator handles
(`rag_pipeline`, `user_profile`) are omitted: no branch of the embedded
nodes reads them.  `analysis_results` / `session_analysis` hold a
`SessionRecommendations`; the nodes only ever read its `weak_points` list,
so the value is modelled as that list. -/
structure State where
  messages : List Msg
  user_id : String := "default_user"
  current_topic : Option String := none
  current_intent : Option String := none
  weak_points : Option (List WeakPoint) := none
  generated_schedule : Option Schedule := none
  schedule_plan : Option Schedule := none
  next_agent : Option String := none
  workflow_complete : Bool := false
  session_mode : Option String := none
  tutor_session_active : Bool := false
  analysis_results : Option (List WeakPoint) := none
  session_analysis : Option (List WeakPoint) := none
  user_wants_scheduling : Bool := false
  needs_motivation : Bool := false
  start_tutor_after_schedule : Bool := false
  ready_for_tutoring : Bool := false
  tutor_exit_requested : Bool := false
  awaiting_schedule_confirmation : Bool := false
  awaiting_schedule_details : Bool := false
  pending_schedule_request : Option String := none
deriving DecidableEq, Repr

/-- A node's returned update dict: `none` means the key is absent from the
dict.  Fields that are nullable in the state (`session_mode`,
`pending_schedule_request`, ...) are doubly wrapped, since a node may
explicitly store `None`.  `messages` is merged by the `add_messages`
reducer (append); every other present key overwrites. -/
structure Patch where
  messages : List Msg := []
  current_intent : Option String := none
  weak_points : Option (List WeakPoint) := none
  generated_schedule : Option Schedule := none
  schedule_plan : Option Schedule := none
  next_agent : Option String := none
  session_mode : Option (Option String) := none
  tutor_session_active : Option Bool := none
  analysis_results : Option (List WeakPoint) := none
  session_analysis : Option (List WeakPoint) := none
  user_wants_scheduling : Option Bool := none
  needs_motivation : Option Bool := none
  start_tutor_after_schedule : Option Bool := none
  ready_for_tutoring : Option Bool := none
  tutor_exit_requested : Option Bool := none
  awaiting_schedule_confirmation : Option Bool := none
  awaiting_schedule_details : Option Bool := none
  pending_schedule_request : Option (Option String) := none
deriving DecidableEq, Repr

/-- Overwrite an optional state field when the patch carries the key. -/
def setOpt (patch : Option α) (old : Option α) : Option α :=
  match patch with
  | some v => some v
  | none => old

/-- The LangGraph state reducer: `messages` uses `add_messages` (append),
every other key is overwritten when present in the update dict. -/
def applyPatch (s : State) (p : Patch) : State :=
  { s with
    messages := s.messages ++ p.messages
    current_intent := setOpt p.current_intent s.current_intent
    weak_points := setOpt p.weak_points s.weak_points
    generated_schedule := setOpt p.generated_schedule s.generated_schedule
    schedule_plan := setOpt p.schedule_plan s.schedule_plan
    next_agent := setOpt p.next_agent s.next_agent
    session_mode := p.session_mode.getD s.session_mode
    tutor_session_active := p.tutor_session_active.getD s.tutor_session_active
    analysis_results := setOpt p.analysis_results s.analysis_results
    session_analysis := setOpt p.session_analysis s.session_analysis
    user_wants_scheduling := p.user_wants_scheduling.getD s.user_wants_scheduling
    needs_motivation := p.needs_motivation.getD s.needs_motivation
    start_tutor_after_schedule := p.start_tutor_after_schedule.getD s.start_tutor_after_schedule
    ready_for_tutoring := p.ready_for_tutoring.getD s.ready_for_tutoring
    tutor_exit_requested := p.tutor_exit_requested.getD s.tutor_exit_requested
    awaiting_schedule_confirmation :=
      p.awaiting_schedule_confirmation.getD s.awaiting_schedule_confirmation
    awaiting_schedule_details := p.awaiting_schedule_details.getD s.awaiting_schedule_details
    pending_schedule_request := p.pending_schedule_request.getD s.pending_schedule_request }

/-- Outcomes of the external collaborator calls a turn can make.  `.error`
models the Python call raising; `.ok` its return value.  Modelling them as
per-turn constants is faithful because each node performs each kind of
call at most once per execution. -/
structure Env where
  /-- `tutor.get_context(question, k=5)`; a retrieval exception yields `[]`. -/
  context : List String := []
  /-- The tutoring answer generated by the chat model. -/
  tutorAnswer : String := ""
  /-- The exit-intent model reply (`response.content`). -/
  exitClassify : Except String String := .ok ""
  /-- The outcome of `scheduler.generate_schedule(...)`. -/
  genSchedule : Except String Schedule := .error ""
  /-- The outcome of `scheduler.sync_schedule(...)`. -/
  syncResult : Except String Unit := .ok ()
  /-- The outcome of `detector.analyze_conversation(...)`: its weak points. -/
  analyze : Except String (List WeakPoint) := .ok []
  /-- The outcome of `motivator.craft_personalized_message(...)`. -/
  motivation : Except String String := .ok ""

/-- How many external calls a node execution made, by kind. -/
structure Effects where
  genCalls : Nat := 0
  syncCalls : Nat := 0
  analyzeCalls : Nat := 0
  exitLlmCalls : Nat := 0
deriving DecidableEq, Repr

/- ==================== vocabularies (workflow_nodes.py) ==================== -/

def motivation_keywords : List String :=
  ["motivat", "pep talk", "encourag", "inspire", "hype me"]

def analysis_keywords : List String :=
  ["analy", "weak point", "summary", "recap", "reflect"]

def study_keywords : List String :=
  ["study", "learn", "help me", "tutor", "teach", "quiz", "practice",
   "explain", "walk me through", "understand", "lesson"]

def off_topic_keywords : List String :=
  ["recipe", "cooking", "weather", "sports", "movie", "music", "game",
   "restaurant", "travel", "shopping", "fashion", "celebrity", "joke"]

/-- Phase-A affirmative vocabulary (scheduler node, line 405). -/
def affirmative_words_confirm : List String :=
  ["yes", "yeah", "yep", "sure", "affirmative", "please", "ok", "okay", "definitely"]

def negative_words : List String :=
  ["no", "nope", "nah", "cancel", "not now", "later", "stop"]

/-- Sync-confirmation affirmative vocabulary (scheduler node, line 499);
note it is checked by substring containment, unlike the Phase-A list. -/
def affirmative_words_sync : List String :=
  ["yes", "yeah", "sure", "ok", "okay", "y", "yep", "please", "sync"]

def day_keywords : List String :=
  ["monday", "tuesday", "wednesday", "thursday", "friday", "saturday",
   "sunday", "today", "tomorrow", "tonight", "weekend"]

def exit_keywords : List String :=
  ["done", "finish", "end", "stop", "enough", "that's all",
   "analyze", "session summary", "weak points", "schedule",
   "bye", "goodbye", "see you", "thanks for your help"]

/-- Phase-A affirmative test: some whitespace-token of the normalized reply
equals an affirmative word, or the whole normalized reply is one
(`any(word in normalized.split() ...) or normalized in affirmative_words`). -/
def isAffirmativeConfirm (normalized : String) : Bool :=
  affirmative_words_confirm.any (fun w => (splitWs normalized).contains w)
    || affirmative_words_confirm.contains normalized

/-- Negative test (`any(word in normalized for word in negative_words)`):
substring containment. -/
def isNegative (normalized : String) : Bool :=
  negative_words.any (fun w => substrOf w normalized)

/-- Phase-B day test: a day keyword occurs in the normalized reply. -/
def hasDayReference (normalized : String) : Bool :=
  day_keywords.any (fun d => substrOf d normalized)

/- ==== the Phase-B time regex ====
`\b\d{1,2}(:\d{2})?\s*(am|pm)?\b|\b\d{1,2}\s*[-:to]{1,3}\s*\d{1,2}`
(searched case-insensitively over the already lowercased reply), embedded
as an explicit position-by-position matcher. -/

/-- Regex `\w` (ASCII fragment). -/
def isWordChar (c : Char) : Bool := c.isAlphanum || c = '_'

/-- Regex `\b` at the position between `prev` and the rest of the text
(`none` at the ends of the text counts as a non-word side). -/
def boundaryAfter (prev : Char) : List Char → Bool
  | [] => isWordChar prev
  | c :: _ => isWordChar prev != isWordChar c

/-- `(am|pm)?\b` directly at this position (`prev` = last consumed char). -/
def amPmBoundary (prev : Char) (cs : List Char) : Bool :=
  boundaryAfter prev cs ||
    (match cs with
     | 'a' :: 'm' :: rest => boundaryAfter 'm' rest
     | 'p' :: 'm' :: rest => boundaryAfter 'm' rest
     | _ => false)

/-- `\s*(am|pm)?\b`: either match `(am|pm)?\b` here, or consume one
whitespace character and continue. -/
def alt1Tail (prev : Char) : List Char → Bool
  | [] => amPmBoundary prev []
  | c :: rest => amPmBoundary prev (c :: rest) || (isWsChar c && alt1Tail c rest)

/-- First alternative `\b\d{1,2}(:\d{2})?\s*(am|pm)?\b`, positioned just
after its first digit `d1` (both one- and two-digit spans are tried). -/
def alt1After (d1 : Char) (cs : List Char) : Bool :=
  let afterDigits : List (Char × List Char) :=
    (d1, cs) :: (match cs with
      | d2 :: rest => if d2.isDigit then [(d2, rest)] else []
      | [] => [])
  afterDigits.any (fun pr =>
    alt1Tail pr.1 pr.2 ||
      (match pr.2 with
       | ':' :: a :: b :: rest2 => a.isDigit && b.isDigit && alt1Tail b rest2
       | _ => false))

/-- The separator class `[-:to]`. -/
def sepClassChar (c : Char) : Bool := c = '-' || c = ':' || c = 't' || c = 'o'

/-- Second alternative `\b\d{1,2}\s*[-:to]{1,3}\s*\d{1,2}`, just after its
first digit.  Whitespace is neither a separator-class nor a digit
character, so the spans of `\s*` and of the separator run are forced; only
the leading digit count is enumerated. -/
def alt2After (d1 : Char) (cs : List Char) : Bool :=
  let rests : List (List Char) :=
    cs :: (match cs with
      | d2 :: rest => if d2.isDigit then [rest] else []
      | [] => [])
  let _ := d1
  rests.any (fun rest =>
    let afterWs := rest.dropWhile isWsChar
    let seps := afterWs.takeWhile sepClassChar
    let afterSeps := afterWs.dropWhile sepClassChar
    decide (1 ≤ seps.length) && decide (seps.length ≤ 3) &&
      (match afterSeps.dropWhile isWsChar with
       | c :: _ => c.isDigit
       | [] => false))

/-- `time_pattern.search(normalized)`: scan every position; a match of
either alternative must start at a word boundary followed by a digit. -/
def timeSearch : Option Char → List Char → Bool
  | _, [] => false
  | prev, c :: rest =>
    ((match prev with
      | none => true
      | some p => !isWordChar p) &&
      c.isDigit && (alt1After c rest || alt2After c rest))
    || timeSearch (some c) rest

/-- Phase-B time test: the scheduler's time regex finds a match. -/
def hasTimeReference (normalized : String) : Bool :=
  timeSearch none normalized.data

/- ==================== tutoring exit detection ==================== -/

/-- `detect_tutor_exit_intent` (workflow_nodes.py 798-896): at least one
exchange is required; the keyword pre-filter runs on the last human message
of the last four messages; only when it hits is the model consulted
(`env.exitClassify` is the model reply, `.error` the call raising, which
the source catches and turns into CONTINUE).  Returns the decision and the
number of model calls made. -/
def detect_tutor_exit_intent (env : Env) (messages : List Msg) : Bool × Nat :=
  if messages.length < 2 then (false, 0)
  else
    let recent := takeLast 4 messages
    match lastHumanMsg recent with
    | none => (false, 0)
    | some m =>
      let userTextLower := pyLower m.content
      if exit_keywords.any (fun k => substrOf k userTextLower) then
        match env.exitClassify with
        | .ok response => (pyUpper (pyStrip response) == "END", 1)
        | .error _ => (false, 1)
      else (false, 0)

/-- The keyword pre-filter of `detect_tutor_exit_intent` in isolation: some
trigger word occurs in the last human message of the last four messages. -/
def tutorExitKeywordHit (messages : List Msg) : Bool :=
  match lastHumanMsg (takeLast 4 messages) with
  | some m => exit_keywords.any (fun k => substrOf k (pyLower m.content))
  | none => false

/- ==================== node 1: intent router ==================== -/

/-- `intent_router_node` (workflow_nodes.py 42-196). -/
def intent_router_node (s : State) : Patch :=
  if s.messages.isEmpty then
    { current_intent := some "tutor", next_agent := some "tutor",
      needs_motivation := some false, start_tutor_after_schedule := some false,
      tutor_exit_requested := some false }
  else
    match lastHumanMsg s.messages with
    | none =>
      { current_intent := some "tutor", next_agent := some "__end__",
        needs_motivation := some false, start_tutor_after_schedule := some false,
        tutor_exit_requested := some false }
    | some m =>
      let user_text := pyStrip m.content
      let normalized := pyLower user_text
      let base : Patch :=
        { needs_motivation := some false, start_tutor_after_schedule := some false,
          tutor_exit_requested := some false }
      if s.awaiting_schedule_details then
        { base with
          current_intent := some "schedule"
          next_agent := some "scheduler"
          pending_schedule_request := some (some user_text) }
      else if s.awaiting_schedule_confirmation then
        { base with
          current_intent := some "schedule"
          next_agent := some "scheduler"
          pending_schedule_request := some (some user_text) }
      else
        let is_motivation_intent := containsAny normalized motivation_keywords
        let is_analysis_intent := containsAny normalized analysis_keywords
        let is_study_intent := containsAny normalized study_keywords || pyEndsWith normalized "?"
        if is_motivation_intent && !s.tutor_session_active then
          { base with
            current_intent := some "motivate"
            next_agent := some "motivator"
            needs_motivation := some true
            session_mode := some (some "motivation_requested") }
        else if is_analysis_intent then
          { base with
            current_intent := some "analyze"
            next_agent := some "analyzer"
            session_mode := some (some "analysis_requested")
            tutor_session_active := some false }
        else if s.tutor_session_active then
          { base with
            current_intent := some "tutor"
            next_agent := some "tutor"
            session_mode := some (some "active_tutoring") }
        else if is_study_intent then
          { base with
            current_intent := some "tutor"
            next_agent := some "tutor"
            session_mode := some (some "active_tutoring")
            tutor_session_active := some true }
        else
          -- the source's default branch returns the same update dict as the
          -- study-intent branch
          { base with
            current_intent := some "tutor"
            next_agent := some "tutor"
            session_mode := some (some "active_tutoring")
            tutor_session_active := some true }

/- ==================== node 2: tutor ==================== -/

/-- `tutor_agent_node` (workflow_nodes.py 203-371).  Retrieval and answer
generation are the environment: `env.context` is the retrieved chunk list
(a retrieval exception yields `[]` in the source), `env.tutorAnswer` the
generated answer.  Effects count the exit-detector model calls. -/
def tutor_agent_node (env : Env) (s : State) : Patch × Effects :=
  match lastHumanMsg s.messages with
  | none =>
    ({ messages := [.ai "I didn't catch a question to help with. Could you please try asking again?"],
       tutor_session_active := some false,
       session_mode := some (some "active_tutoring"),
       next_agent := some "__end__",
       tutor_exit_requested := some false }, {})
  | some m =>
    let question := m.content
    if !env.context.isEmpty &&
        off_topic_keywords.any (fun k => substrOf k (pyLower question)) then
      ({ messages := [.ai ("I don't have information about that in your study materials. " ++
           "I'm here to help you learn from your uploaded PDFs. Please ask me about academic topics covered in your materials.")],
         next_agent := some "__end__",
         tutor_session_active := some s.tutor_session_active,
         session_mode := some s.session_mode,
         tutor_exit_requested := some false }, {})
    else
      let answer :=
        if !env.context.isEmpty then env.tutorAnswer
        else "I don't have any study materials loaded yet. Please upload a PDF using /ingest command first."
      let exitCheck := detect_tutor_exit_intent env s.messages
      let exit_requested := exitCheck.1
      ({ messages := [.ai answer],
         tutor_session_active := some (!exit_requested),
         session_mode := some (some (if exit_requested then "analysis_requested" else "active_tutoring")),
         next_agent := some (if exit_requested then "analyzer" else "__end__"),
         tutor_exit_requested := some exit_requested },
       { exitLlmCalls := exitCheck.2 })

/- ==================== node 3: scheduler ==================== -/

/-- The message the scheduler sees: the last human message, else the last
message of the log (the source indexes `messages[-1]`, raising on an empty
log, which the graph rules out; here the empty case yields `""`). -/
def schedUserInput (s : State) : String :=
  match lastHumanMsg s.messages with
  | some m => m.content
  | none => (s.messages.getLast?.map Msg.content).getD ""

def schedDetailsPrompt : String :=
  "Great! When would you like your next study session? Please share a specific day and time window (e.g., \"Tuesday 14:00-16:00\")."

def schedNoProblemMsg : String :=
  "No problem! If you change your mind, just let me know and we can plan the next session together."

def schedAmbiguousPrompt : String :=
  "Just let me know with a simple \"yes\" or \"no\" if you'd like me to schedule your next session."

def schedDetailsDeclineMsg : String :=
  "All right! We can plan another time whenever you're ready."

def schedDetailsReprompt : String :=
  "To lock in the session, I need both a day and a time window. For example: \"Thursday from 18:00-20:00\" or \"Saturday 10am-12pm\"."

/-- `"%02d"` rendering of a two-digit field. -/
def pad2 (n : Nat) : String :=
  if n < 10 then "0" ++ toString n else toString n

/-- Render minutes-from-midnight the way the source's `strftime("%H:%M")`
renders the session datetimes. -/
def minToHHMM (m : Nat) : String :=
  pad2 (m / 60) ++ ":" ++ pad2 (m % 60)

/-- The scheduler node's success response (workflow_nodes.py 574-588):
header, an optional prioritization line when analysis results with weak
points exist in state, the study-session count and the first five plan
entries (study ones only, keeping the enumeration index of the slice). -/
def genOkResponse (s : State) (schedule : Schedule) : String :=
  let analysisResults :=
    if s.session_analysis.isSome then s.session_analysis else s.analysis_results
  let weakLine :=
    match analysisResults with
    | some wps =>
      if wps.isEmpty then ""
      else "📊 Based on your session analysis, I've prioritized: " ++
        String.intercalate ", " ((wps.take 3).map WeakPoint.topic) ++ "\n\n"
    | none => ""
  let sessions := schedule.sessions
  let studyCount := (sessions.filter (fun x => x.kind == "study")).length
  let entryLines := String.join ((sessions.take 5).enum.map (fun pr =>
    if pr.2.kind == "study" then
      toString (pr.1 + 1) ++ ". 📖 " ++ minToHHMM pr.2.startM ++ " - " ++
        minToHHMM pr.2.endM ++ ": " ++ pr.2.subject ++ "\n"
    else ""))
  "📚 I've created your study schedule!\n\n" ++ weakLine ++
    "Found " ++ toString studyCount ++ " study sessions:\n\n" ++ entryLines ++
    "\nWould you like me to sync this to your calendar?"

/-- The part of `scheduler_agent_node` after the two sub-dialogue gates
(workflow_nodes.py 496-621): the sync-confirmation check on an existing
schedule, then schedule generation.  The generation call itself (LLM
preference extraction plus plan building, lines 554-571 including the
weak-point recommendations handed over) is the collaborator `env.genSchedule`;
the sync call is `env.syncResult`. -/
def schedulerMainFlow (env : Env) (s : State) (user_input : String) : Patch × Effects :=
  if s.generated_schedule.isSome &&
      affirmative_words_sync.any (fun w => substrOf w (pyLower user_input)) then
    match env.syncResult with
    | .ok _ =>
      ({ messages := [.ai "✅ Great! I've synced your study schedule to your calendar. You should see the events appear shortly!"],
         next_agent := some "__end__",
         start_tutor_after_schedule := some false,
         ready_for_tutoring := some false,
         session_mode := some (some "scheduled"),
         user_wants_scheduling := some false,
         awaiting_schedule_confirmation := some false,
         awaiting_schedule_details := some false,
         pending_schedule_request := some s.pending_schedule_request },
       { syncCalls := 1 })
    | .error e =>
      ({ messages := [.ai ("⚠️ I had trouble syncing to your calendar: " ++ e ++
           "\n\nYour schedule is still saved, but it wasn't added to your calendar.")],
         next_agent := some "__end__",
         start_tutor_after_schedule := some false,
         ready_for_tutoring := some false,
         user_wants_scheduling := some false,
         awaiting_schedule_confirmation := some false,
         awaiting_schedule_details := some false,
         pending_schedule_request := some s.pending_schedule_request },
       { syncCalls := 1 })
  else
    let user_input2 :=
      if !(["study", "focus", "subject", "topic"].any
            (fun w => substrOf w (pyLower user_input))) then
        user_input ++ " studying General Topics"
      else user_input
    match env.genSchedule with
    | .ok schedule =>
      let should_start_tutor := s.start_tutor_after_schedule
      ({ messages := [.ai (genOkResponse s schedule)],
         generated_schedule := some schedule,
         schedule_plan := some schedule,
         session_mode := some (some (if should_start_tutor then "active_tutoring" else "scheduled")),
         tutor_session_active := some should_start_tutor,
         ready_for_tutoring := some should_start_tutor,
         start_tutor_after_schedule := some false,
         user_wants_scheduling := some false,
         awaiting_schedule_confirmation := some false,
         awaiting_schedule_details := some false,
         pending_schedule_request := some (some user_input2),
         next_agent := some (if should_start_tutor then "tutor" else "__end__") },
       { genCalls := 1 })
    | .error e =>
      ({ messages := [.ai ("Sorry, I had trouble creating a schedule: " ++ e)],
         next_agent := some "__end__",
         ready_for_tutoring := some false,
         start_tutor_after_schedule := some false,
         user_wants_scheduling := some false,
         awaiting_schedule_confirmation := some false,
         awaiting_schedule_details := some (if s.awaiting_schedule_details then true else false),
         pending_schedule_request :=
           some (if s.awaiting_schedule_details then none else s.pending_schedule_request) },
       { genCalls := 1 })

/-- `scheduler_agent_node` (workflow_nodes.py 378-621): the Phase-A
confirmation gate, the Phase-B details gate (whose passing replies fall
through), then `schedulerMainFlow`. -/
def scheduler_agent_node (env : Env) (s : State) : Patch × Effects :=
  let user_input := schedUserInput s
  let normalized := pyStrip (pyLower user_input)
  if s.awaiting_schedule_confirmation then
    if isAffirmativeConfirm normalized then
      ({ messages := [.ai schedDetailsPrompt],
         awaiting_schedule_confirmation := some false,
         awaiting_schedule_details := some true,
         pending_schedule_request := some none,
         user_wants_scheduling := some true,
         session_mode := some (some "scheduling_requested"),
         next_agent := some "__end__" }, {})
    else if isNegative normalized then
      ({ messages := [.ai schedNoProblemMsg],
         awaiting_schedule_confirmation := some false,
         awaiting_schedule_details := some false,
         pending_schedule_request := some none,
         user_wants_scheduling := some false,
         session_mode := some (some "analysis_completed"),
         next_agent := some "__end__" }, {})
    else
      ({ messages := [.ai schedAmbiguousPrompt],
         awaiting_schedule_confirmation := some true,
         awaiting_schedule_details := some false,
         pending_schedule_request := some none,
         user_wants_scheduling := some false,
         next_agent := some "__end__" }, {})
  else if s.awaiting_schedule_details && isNegative normalized then
    ({ messages := [.ai schedDetailsDeclineMsg],
       awaiting_schedule_confirmation := some false,
       awaiting_schedule_details := some false,
       pending_schedule_request := some none,
       user_wants_scheduling := some false,
       session_mode := some (some "analysis_completed"),
       next_agent := some "__end__" }, {})
  else if s.awaiting_schedule_details &&
      !(hasDayReference normalized && hasTimeReference normalized) then
    ({ messages := [.ai schedDetailsReprompt],
       awaiting_schedule_confirmation := some false,
       awaiting_schedule_details := some true,
       pending_schedule_request := some none,
       user_wants_scheduling := some true,
       next_agent := some "__end__" }, {})
  else
    schedulerMainFlow env s user_input

/- ==================== node 4: analyzer ==================== -/

def analyzerNeedMoreMsg : String :=
  "I need more conversation to analyze. Ask me a few questions first!"

/-- The difficulty icon of the analysis bullet lines. -/
def difficultyIcon (difficulty : String) : String :=
  if difficulty == "severe" then "🔴"
  else if difficulty == "moderate" then "🟡"
  else "🟢"

/-- The analysis summary response (workflow_nodes.py 670-682). -/
def analyzerOkResponse (weak_points : List WeakPoint) : String :=
  let bullet_lines :=
    if !weak_points.isEmpty then
      ("I identified " ++ toString weak_points.length ++ " areas to focus on:\n") ::
        (weak_points.take 3).enum.map (fun pr =>
          toString (pr.1 + 1) ++ ". " ++ difficultyIcon pr.2.difficulty_level ++ " " ++
            pyUpper pr.2.topic ++ " — " ++ pr.2.difficulty_level ++ " difficulty")
    else ["I didn't spot any major trouble areas this time — nice work!"]
  "📊 Session Analysis:\n\n" ++ String.intercalate "\n" bullet_lines ++
    "\n\nWould you like me to schedule another study session for you? (yes/no)"

/-- `analyzer_agent_node` (workflow_nodes.py 628-711): below four total
messages the minimum-transcript reply is returned without calling the
detector; otherwise the weakness-detector call is `env.analyze` (its
`SessionRecommendations` abstracted to the weak-point list). -/
def analyzer_agent_node (env : Env) (s : State) : Patch × Effects :=
  if s.messages.length < 4 then
    ({ messages := [.ai analyzerNeedMoreMsg],
       next_agent := some "__end__",
       tutor_session_active := some false,
       session_mode := some (some "analysis_completed"),
       needs_motivation := some false,
       user_wants_scheduling := some false,
       awaiting_schedule_confirmation := some false,
       awaiting_schedule_details := some false }, {})
  else
    match env.analyze with
    | .ok weak_points =>
      ({ messages := [.ai (analyzerOkResponse weak_points)],
         weak_points := some weak_points,
         analysis_results := some weak_points,
         session_analysis := some weak_points,
         user_wants_scheduling := some false,
         needs_motivation := some false,
         session_mode := some (some "analysis_completed"),
         tutor_session_active := some false,
         awaiting_schedule_confirmation := some true,
         awaiting_schedule_details := some false,
         pending_schedule_request := some none,
         next_agent := some "__end__" },
       { analyzeCalls := 1 })
    | .error e =>
      ({ messages := [.ai ("Sorry, I had trouble analyzing the session: " ++ e)],
         next_agent := some "__end__",
         needs_motivation := some false,
         awaiting_schedule_confirmation := some false,
         awaiting_schedule_details := some false },
       { analyzeCalls := 1 })

/- ==================== node 5: motivator ==================== -/

/-- `motivator_agent_node` (workflow_nodes.py 718-791): profile handling
and message crafting sit inside one try block modelled by
`env.motivation`; any exception yields the fixed fallback encouragement.
Both branches return the same state patch shape. -/
def motivator_agent_node (env : Env) (_s : State) : Patch × Effects :=
  let response :=
    match env.motivation with
    | .ok text => text
    | .error _ => "Keep pushing forward! You're doing great! 🚀"
  ({ messages := [.ai response],
     next_agent := some "__end__",
     needs_motivation := some false,
     session_mode := some (some "complete"),
     tutor_session_active := some false }, {})

/- ==================== the graph (workflow_graph.py) ==================== -/

/-- The graph's nodes (`create_study_pal_graph`). -/
inductive Node where
  | intent_router
  | tutor
  | scheduler
  | analyzer
  | motivator
deriving DecidableEq, Repr

/-- `route_after_intent` (workflow_graph.py 84-102): `none` is `__end__`.
`state.get("next_agent") or "__end__"` maps a missing/None/empty value to
`"__end__"`, and anything outside the four valid targets ends the turn. -/
def route_after_intent (s : State) : Option Node :=
  let next_node := s.next_agent.getD "__end__"
  if next_node == "tutor" then some .tutor
  else if next_node == "scheduler" then some .scheduler
  else if next_node == "analyzer" then some .analyzer
  else if next_node == "motivator" then some .motivator
  else none

/-- `route_after_tutor` (workflow_nodes.py 899-935). -/
def route_after_tutor (s : State) : Option Node :=
  if s.workflow_complete then none
  else if s.next_agent.getD "__end__" == "analyzer" then some .analyzer
  else none

/-- `route_after_analyzer` (workflow_nodes.py 938-955): always `__end__`
(the edge map also names scheduler and motivator, but the function never
returns them). -/
def route_after_analyzer (_s : State) : Option Node := none

/-- `route_after_scheduler` (workflow_nodes.py 958-979). -/
def route_after_scheduler (s : State) : Option Node :=
  if s.next_agent.getD "__end__" == "tutor" then some .tutor
  else if s.next_agent.getD "__end__" == "motivator" then some .motivator
  else none

/-- Dispatch one node execution. -/
def runNode (env : Env) (n : Node) (s : State) : Patch × Effects :=
  match n with
  | .intent_router => (intent_router_node s, {})
  | .tutor => tutor_agent_node env s
  | .scheduler => scheduler_agent_node env s
  | .analyzer => analyzer_agent_node env s
  | .motivator => motivator_agent_node env s

/-- The compiled graph's conditional edges: after the router the selected
handler, after scheduler/tutor/analyzer their routing functions, after
motivator the unconditional edge to END. -/
def nextNode (n : Node) (s : State) : Option Node :=
  match n with
  | .intent_router => route_after_intent s
  | .tutor => route_after_tutor s
  | .scheduler => route_after_scheduler s
  | .analyzer => route_after_analyzer s
  | .motivator => none

/-- Execute the graph from node `n`: run the node, merge its update via the
state reducer, follow the conditional edge, until END.  Returns the final
state and the list of executed nodes.  `fuel` bounds the steps; `runTurn`
passes more fuel than any path through the graph can use. -/
def exec (env : Env) : Nat → Node → State → State × List Node
  | 0, _, s => (s, [])
  | fuel + 1, n, s =>
    let s1 := applyPatch s (runNode env n s).1
    match nextNode n s1 with
    | none => (s1, [n])
    | some m =>
      let r := exec env fuel m s1
      (r.1, n :: r.2)

/-- One external turn (`LangGraphChatbot.chat` / `app.invoke`): the caller
appends the user's message to the log, then the graph runs from its entry
point `intent_router`. -/
def runTurn (env : Env) (s : State) (userText : String) : State × List Node :=
  exec env 5 .intent_router { s with messages := s.messages ++ [Msg.human userText] }

/- ==================== basic lemmas about the runner ==================== -/


theorem applyPatch_messages (s : State) (p : Patch) :
    (applyPatch s p).messages = s.messages ++ p.messages := rfl

theorem applyPatch_next_agent (s : State) (p : Patch) :
    (applyPatch s p).next_agent = setOpt p.next_agent s.next_agent := rfl

theorem applyPatch_workflow_complete (s : State) (p : Patch) :
    (applyPatch s p).workflow_complete = s.workflow_complete := rfl

theorem applyPatch_start_tutor (s : State) (p : Patch) :
    (applyPatch s p).start_tutor_after_schedule =
      p.start_tutor_after_schedule.getD s.start_tutor_after_schedule := rfl

theorem exec_succ (env : Env) (fuel : Nat) (n : Node) (s : State) :
    exec env (fuel + 1) n s =
      (match nextNode n (applyPatch s (runNode env n s).1) with
       | none => (applyPatch s (runNode env n s).1, [n])
       | some m =>
         ((exec env fuel m (applyPatch s (runNode env n s).1)).1,
          n :: (exec env fuel m (applyPatch s (runNode env n s).1)).2)) := rfl


theorem intent_router_start_clear (s : State) :
    (intent_router_node s).start_tutor_after_schedule = some false := by
  unfold intent_router_node
  split
  · rfl
  · split
    · rfl
    · dsimp only
      repeat' split
      all_goals rfl

theorem intent_router_next (s : State) :
    (intent_router_node s).next_agent = some "tutor" ∨
    (intent_router_node s).next_agent = some "scheduler" ∨
    (intent_router_node s).next_agent = some "analyzer" ∨
    (intent_router_node s).next_agent = some "motivator" ∨
    (intent_router_node s).next_agent = some "__end__" := by
  unfold intent_router_node
  split
  · simp
  · split
    · simp
    · dsimp only
      repeat' split
      all_goals simp

theorem scheduler_next (env : Env) (s : State)
    (h : s.start_tutor_after_schedule = false) :
    (scheduler_agent_node env s).1.next_agent = some "__end__" := by
  unfold scheduler_agent_node schedulerMainFlow
  dsimp only
  repeat' split
  all_goals simp_all

theorem tutor_next (env : Env) (s : State) :
    (tutor_agent_node env s).1.next_agent = some "analyzer" ∨
    (tutor_agent_node env s).1.next_agent = some "__end__" := by
  unfold tutor_agent_node
  dsimp only
  repeat' split
  all_goals simp

theorem analyzer_next (env : Env) (s : State) :
    (analyzer_agent_node env s).1.next_agent = some "__end__" := by
  unfold analyzer_agent_node
  repeat' split
  all_goals rfl


/-- Per external turn, the executed node list is the router alone, the router
plus one handler, or the router, the tutor and the analyzer.  (The
scheduler-to-tutor and scheduler-to-motivator edges of the graph are never
taken: the router clears `start_tutor_after_schedule` on every turn, after
which every scheduler branch ends the turn.) -/
theorem turn_trace_shape (env : Env) (s : State) (text : String) :
    (runTurn env s text).2 = [Node.intent_router] ∨
    (∃ h, (runTurn env s text).2 = [Node.intent_router, h] ∧ h ≠ Node.intent_router) ∨
    (runTurn env s text).2 = [Node.intent_router, Node.tutor, Node.analyzer] := by
  unfold runTurn
  generalize ({ s with messages := s.messages ++ [Msg.human text] } : State) = s0
  rw [exec_succ]
  have hstart : (applyPatch s0 (runNode env .intent_router s0).1).start_tutor_after_schedule
      = false := by
    show (intent_router_node s0).start_tutor_after_schedule.getD s0.start_tutor_after_schedule
      = false
    rw [intent_router_start_clear]
    rfl
  set s1 := applyPatch s0 (runNode env .intent_router s0).1 with hs1
  rcases intent_router_next s0 with h | h | h | h | h
  case _ =>
    -- router → tutor
    have hna : s1.next_agent = some "tutor" := by
      rw [hs1, applyPatch_next_agent]
      show setOpt (intent_router_node s0).next_agent s0.next_agent = _
      rw [h]
      rfl
    have hroute : nextNode .intent_router s1 = some Node.tutor := by
      show route_after_intent s1 = _
      unfold route_after_intent
      rw [hna]
      rfl
    rw [hroute]
    dsimp only
    rw [exec_succ]
    set s2 := applyPatch s1 (runNode env .tutor s1).1 with hs2
    by_cases hw : s1.workflow_complete
    · have hroute2 : nextNode .tutor s2 = none := by
        show route_after_tutor s2 = none
        unfold route_after_tutor
        rw [show s2.workflow_complete = true from by
          rw [hs2, applyPatch_workflow_complete]; exact hw]
        rfl
      rw [hroute2]
      dsimp only
      exact Or.inr (Or.inl ⟨.tutor, rfl, by decide⟩)
    · have hwf : s2.workflow_complete = false := by
        rw [hs2, applyPatch_workflow_complete]
        exact Bool.eq_false_iff.mpr hw
      rcases tutor_next env s1 with ht | ht
      · have hna2 : s2.next_agent = some "analyzer" := by
          rw [hs2, applyPatch_next_agent]
          show setOpt (tutor_agent_node env s1).1.next_agent s1.next_agent = _
          rw [ht]
          rfl
        have hroute2 : nextNode .tutor s2 = some .analyzer := by
          show route_after_tutor s2 = _
          unfold route_after_tutor
          rw [hwf, hna2]
          rfl
        rw [hroute2]
        dsimp only
        rw [exec_succ]
        have hroute3 : nextNode .analyzer
            (applyPatch s2 (runNode env .analyzer s2).1) = none := rfl
        rw [hroute3]
        dsimp only
        exact Or.inr (Or.inr rfl)
      · have hna2 : s2.next_agent = some "__end__" := by
          rw [hs2, applyPatch_next_agent]
          show setOpt (tutor_agent_node env s1).1.next_agent s1.next_agent = _
          rw [ht]
          rfl
        have hroute2 : nextNode .tutor s2 = none := by
          show route_after_tutor s2 = none
          unfold route_after_tutor
          rw [hwf, hna2]
          rfl
        rw [hroute2]
        dsimp only
        exact Or.inr (Or.inl ⟨.tutor, rfl, by decide⟩)
  case _ =>
    -- router → scheduler
    have hna : s1.next_agent = some "scheduler" := by
      rw [hs1, applyPatch_next_agent]
      show setOpt (intent_router_node s0).next_agent s0.next_agent = _
      rw [h]
      rfl
    have hroute : nextNode .intent_router s1 = some Node.scheduler := by
      show route_after_intent s1 = _
      unfold route_after_intent
      rw [hna]
      rfl
    rw [hroute]
    dsimp only
    rw [exec_succ]
    set s2 := applyPatch s1 (runNode env .scheduler s1).1 with hs2
    have hna2 : s2.next_agent = some "__end__" := by
      rw [hs2, applyPatch_next_agent]
      show setOpt (scheduler_agent_node env s1).1.next_agent s1.next_agent = _
      rw [scheduler_next env s1 hstart]
      rfl
    have hroute2 : nextNode .scheduler s2 = none := by
      show route_after_scheduler s2 = none
      unfold route_after_scheduler
      rw [hna2]
      rfl
    rw [hroute2]
    dsimp only
    exact Or.inr (Or.inl ⟨.scheduler, rfl, by decide⟩)
  case _ =>
    -- router → analyzer
    have hna : s1.next_agent = some "analyzer" := by
      rw [hs1, applyPatch_next_agent]
      show setOpt (intent_router_node s0).next_agent s0.next_agent = _
      rw [h]
      rfl
    have hroute : nextNode .intent_router s1 = some Node.analyzer := by
      show route_after_intent s1 = _
      unfold route_after_intent
      rw [hna]
      rfl
    rw [hroute]
    dsimp only
    rw [exec_succ]
    have hroute2 : nextNode .analyzer
        (applyPatch s1 (runNode env .analyzer s1).1) = none := rfl
    rw [hroute2]
    dsimp only
    exact Or.inr (Or.inl ⟨.analyzer, rfl, by decide⟩)
  case _ =>
    -- router → motivator
    have hna : s1.next_agent = some "motivator" := by
      rw [hs1, applyPatch_next_agent]
      show setOpt (intent_router_node s0).next_agent s0.next_agent = _
      rw [h]
      rfl
    have hroute : nextNode .intent_router s1 = some Node.motivator := by
      show route_after_intent s1 = _
      unfold route_after_intent
      rw [hna]
      rfl
    rw [hroute]
    dsimp only
    rw [exec_succ]
    have hroute2 : nextNode .motivator
        (applyPatch s1 (runNode env .motivator s1).1) = none := rfl
    rw [hroute2]
    dsimp only
    exact Or.inr (Or.inl ⟨.motivator, rfl, by decide⟩)
  case _ =>
    -- router → END
    have hna : s1.next_agent = some "__end__" := by
      rw [hs1, applyPatch_next_agent]
      show setOpt (intent_router_node s0).next_agent s0.next_agent = _
      rw [h]
      rfl
    have hroute : nextNode .intent_router s1 = none := by
      show route_after_intent s1 = none
      unfold route_after_intent
      rw [hna]
      rfl
    rw [hroute]
    dsimp only
    exact Or.inl rfl



/-- The executor only ever appends to the message log. -/
theorem exec_messages (env : Env) :
    ∀ (fuel : Nat) (n : Node) (s : State),
      ∃ tail, (exec env fuel n s).1.messages = s.messages ++ tail := by
  intro fuel
  induction fuel with
  | zero =>
    intro n s
    exact ⟨[], by simp [exec]⟩
  | succ k ih =>
    intro n s
    rw [exec_succ]
    rcases hnn : nextNode n (applyPatch s (runNode env n s).1) with _ | m
    · exact ⟨(runNode env n s).1.messages, by simp [hnn, applyPatch_messages]⟩
    · rcases ih m (applyPatch s (runNode env n s).1) with ⟨tail, htail⟩
      refine ⟨(runNode env n s).1.messages ++ tail, ?_⟩
      simp only [hnn]
      simp [htail, applyPatch_messages]

/-- C8: the message log is append-only across a turn: the turn's result
extends the previous log by the user's message plus whatever the executed
nodes appended — never reordering or truncating it, and growing it by at
least one entry. -/
theorem c8_messages_append_only (env : Env) (s : State) (text : String) :
    ∃ tail, (runTurn env s text).1.messages = s.messages ++ (Msg.human text :: tail) := by
  unfold runTurn
  rcases exec_messages env 5 .intent_router
      { s with messages := s.messages ++ [Msg.human text] } with ⟨tail, htail⟩
  exact ⟨tail, by simpa using htail⟩

/-- C7: while a scheduling sub-dialogue is open (either awaiting flag set),
the router resolves the intent to the scheduler whatever the message
content is. -/
theorem c7_subdialogue_owns_turn (s : State)
    (hmsg : (lastHumanMsg s.messages).isSome = true)
    (hflag : s.awaiting_schedule_confirmation = true ∨ s.awaiting_schedule_details = true) :
    (intent_router_node s).next_agent = some "scheduler" ∧
    (intent_router_node s).current_intent = some "schedule" := by
  rcases Option.isSome_iff_exists.mp hmsg with ⟨m, hm⟩
  have hne : s.messages.isEmpty = false := by
    cases hmsgs : s.messages with
    | nil => rw [hmsgs] at hm; simp [lastHumanMsg] at hm
    | cons a l => rfl
  unfold intent_router_node
  rw [hne, hm]
  by_cases hdet : s.awaiting_schedule_details
  · simp [hdet]
  · have hconf : s.awaiting_schedule_confirmation = true := by
      rcases hflag with h | h
      · exact h
      · exact absurd h (by simpa using hdet)
    simp [hdet, hconf]

/-- Details-phase state whose message matches no scheduling keyword. -/
def s7w : State :=
  { messages := [.human "tell me a joke about pizza"], awaiting_schedule_details := true }

/-- C7 witness: an off-topic message still routes to the scheduler while the
details flag is set. -/
theorem c7_witness :
    (intent_router_node s7w).next_agent = some "scheduler" ∧
    (intent_router_node s7w).current_intent = some "schedule" :=
  c7_subdialogue_owns_turn s7w (by decide) (Or.inr rfl)

/-- The default concrete environment used by witnesses/counterexamples. -/
def env0 : Env := {}

/-- Environment whose exit classifier answers END. -/
def env1 : Env := { exitClassify := .ok "END" }

/-- A session in active tutoring with one prior exchange. -/
def s1c : State :=
  { messages := [.human "help me study", .ai "sure"], tutor_session_active := true }

/-- C1 counterexample: a concrete turn whose executed chain hop is
tutor → analyzer, which is not one of the two chain targets the claim
permits (scheduler → tutor, scheduler → motivator). -/
theorem c1_counterexample :
    (runTurn env1 s1c "thanks, i am done for today, bye").2 =
      [Node.intent_router, Node.tutor, Node.analyzer] ∧
    (Node.tutor, Node.analyzer) ∉
      [(Node.scheduler, Node.tutor), (Node.scheduler, Node.motivator)] := by
  exact ⟨rfl, by decide⟩

/-- C1 (amended): per external turn the runner executes the router, then at
most one selected handler, then at most one same-turn chain hop; the only
chain hop that ever executes is tutor → analyzer (the graph also declares
scheduler → tutor and scheduler → motivator edges, but the router clears
`start_tutor_after_schedule` each turn, after which every scheduler branch
ends the turn); no node executes twice within one external turn. -/
theorem c1_turn_structure (env : Env) (s : State) (text : String) :
    ((runTurn env s text).2 = [Node.intent_router] ∨
     (∃ h, (runTurn env s text).2 = [Node.intent_router, h] ∧ h ≠ Node.intent_router) ∨
     (runTurn env s text).2 = [Node.intent_router, Node.tutor, Node.analyzer]) ∧
    (runTurn env s text).2.Nodup := by
  refine ⟨turn_trace_shape env s text, ?_⟩
  rcases turn_trace_shape env s text with h | ⟨n, h, hn⟩ | h <;> rw [h]
  · decide
  · simp [Ne.symm hn]
  · decide

/-- C10: every external turn terminates after at most four node executions
(the per-turn trace is in fact at most three nodes long), the trace is
acyclic (no node repeats), and the analyzer and motivator always route to
END. -/
theorem c10_turn_bound (env : Env) (s : State) (text : String) :
    (runTurn env s text).2.length ≤ 4 ∧
    (runTurn env s text).2.Nodup ∧
    (∀ s2 : State, nextNode Node.analyzer s2 = none ∧ nextNode Node.motivator s2 = none) := by
  refine ⟨?_, ?_, fun s2 => ⟨rfl, rfl⟩⟩
  · rcases turn_trace_shape env s text with h | ⟨n, h, _⟩ | h <;> rw [h] <;> simp
  · rcases turn_trace_shape env s text with h | ⟨n, h, hn⟩ | h <;> rw [h]
    · decide
    · simp [Ne.symm hn]
    · decide

/-- C2: in the confirmation phase (details flag clear, as the data-model
invariant guarantees — at most one awaiting flag is set), an affirmative
reply moves to the details phase, a negative reply clears both flags, and
an ambiguous reply re-prompts leaving both flags unchanged. -/
theorem c2_confirmation_phase (env : Env) (s : State)
    (hconf : s.awaiting_schedule_confirmation = true)
    (hdet : s.awaiting_schedule_details = false) :
    (isAffirmativeConfirm (pyStrip (pyLower (schedUserInput s))) = true →
      (applyPatch s (scheduler_agent_node env s).1).awaiting_schedule_details = true ∧
      (applyPatch s (scheduler_agent_node env s).1).awaiting_schedule_confirmation = false) ∧
    (isAffirmativeConfirm (pyStrip (pyLower (schedUserInput s))) = false →
     isNegative (pyStrip (pyLower (schedUserInput s))) = true →
      (applyPatch s (scheduler_agent_node env s).1).awaiting_schedule_details = false ∧
      (applyPatch s (scheduler_agent_node env s).1).awaiting_schedule_confirmation = false) ∧
    (isAffirmativeConfirm (pyStrip (pyLower (schedUserInput s))) = false →
     isNegative (pyStrip (pyLower (schedUserInput s))) = false →
      (applyPatch s (scheduler_agent_node env s).1).awaiting_schedule_confirmation
          = s.awaiting_schedule_confirmation ∧
      (applyPatch s (scheduler_agent_node env s).1).awaiting_schedule_details
          = s.awaiting_schedule_details ∧
      (scheduler_agent_node env s).1.messages = [Msg.ai schedAmbiguousPrompt]) := by
  refine ⟨fun ha => ?_, fun ha hn => ?_, fun ha hn => ?_⟩
  · dsimp only [scheduler_agent_node]
    rw [hconf, ha]
    exact ⟨rfl, rfl⟩
  · dsimp only [scheduler_agent_node]
    rw [hconf, ha, hn]
    exact ⟨rfl, rfl⟩
  · dsimp only [scheduler_agent_node]
    rw [hconf, ha, hn, hdet]
    exact ⟨rfl, rfl, rfl⟩

/-- Confirmation-phase witness state: an affirmative "yes" reply. -/
def s2w : State := { messages := [.human "yes"], awaiting_schedule_confirmation := true }

theorem c2_witness :
    (applyPatch s2w (scheduler_agent_node env0 s2w).1).awaiting_schedule_details = true ∧
    (applyPatch s2w (scheduler_agent_node env0 s2w).1).awaiting_schedule_confirmation = false :=
  (c2_confirmation_phase env0 s2w rfl rfl).1 (by decide)

/-- Details-phase state holding the reply "no". -/
def s3c : State := { messages := [.human "no"], awaiting_schedule_details := true }

/-- C3 counterexample: in the details phase, the reply "no" contains
neither a day nor a time reference, so the claim requires a re-prompt that
keeps `awaiting_schedule_details` set — but the handler's negative-word
check fires first and clears both flags, ending the sub-dialogue. -/
theorem c3_counterexample :
    s3c.awaiting_schedule_details = true ∧
    hasDayReference (pyStrip (pyLower (schedUserInput s3c))) = false ∧
    (applyPatch s3c (scheduler_agent_node env0 s3c).1).awaiting_schedule_details = false ∧
    (scheduler_agent_node env0 s3c).2.genCalls = 0 := by
  decide

/-- C3 (amended): in the details phase (confirmation flag clear, no
generated schedule pending), a reply containing a negative word clears
both flags without generating; otherwise, if day and time references are
both present, schedule generation is invoked exactly once (flags clear on
success; on failure the details flag is kept for a retry); if either
reference is missing the handler re-prompts and keeps the details flag. -/
theorem c3_details_phase (env : Env) (s : State)
    (hdet : s.awaiting_schedule_details = true)
    (hconf : s.awaiting_schedule_confirmation = false)
    (hsched : s.generated_schedule = none) :
    (isNegative (pyStrip (pyLower (schedUserInput s))) = true →
      (applyPatch s (scheduler_agent_node env s).1).awaiting_schedule_details = false ∧
      (applyPatch s (scheduler_agent_node env s).1).awaiting_schedule_confirmation = false ∧
      (scheduler_agent_node env s).2.genCalls = 0) ∧
    (isNegative (pyStrip (pyLower (schedUserInput s))) = false →
     (hasDayReference (pyStrip (pyLower (schedUserInput s))) &&
        hasTimeReference (pyStrip (pyLower (schedUserInput s)))) = false →
      (applyPatch s (scheduler_agent_node env s).1).awaiting_schedule_details = true ∧
      (applyPatch s (scheduler_agent_node env s).1).awaiting_schedule_confirmation = false ∧
      (scheduler_agent_node env s).2.genCalls = 0 ∧
      (scheduler_agent_node env s).1.messages = [Msg.ai schedDetailsReprompt]) ∧
    (isNegative (pyStrip (pyLower (schedUserInput s))) = false →
     (hasDayReference (pyStrip (pyLower (schedUserInput s))) &&
        hasTimeReference (pyStrip (pyLower (schedUserInput s)))) = true →
      (scheduler_agent_node env s).2.genCalls = 1 ∧
      (scheduler_agent_node env s).2.syncCalls = 0 ∧
      (∀ sch, env.genSchedule = .ok sch →
        (applyPatch s (scheduler_agent_node env s).1).awaiting_schedule_confirmation = false ∧
        (applyPatch s (scheduler_agent_node env s).1).awaiting_schedule_details = false) ∧
      (∀ e, env.genSchedule = .error e →
        (applyPatch s (scheduler_agent_node env s).1).awaiting_schedule_confirmation = false ∧
        (applyPatch s (scheduler_agent_node env s).1).awaiting_schedule_details = true)) := by
  refine ⟨fun hn => ?_, fun hn hdt => ?_, fun hn hdt => ?_⟩
  · dsimp only [scheduler_agent_node]
    rw [hconf, hdet, hn]
    exact ⟨rfl, rfl, rfl⟩
  · dsimp only [scheduler_agent_node]
    rw [hconf, hdet, hn, hdt]
    exact ⟨rfl, rfl, rfl, rfl⟩
  · dsimp only [scheduler_agent_node, schedulerMainFlow]
    rw [hconf, hdet, hn, hdt, hsched]
    refine ⟨?_, ?_, fun sch hg => ?_, fun e hg => ?_⟩
    · cases env.genSchedule <;> rfl
    · cases env.genSchedule <;> rfl
    · rw [hg]
      exact ⟨rfl, rfl⟩
    · rw [hg]
      exact ⟨rfl, rfl⟩

/-- Environment whose schedule generation succeeds with an empty plan. -/
def env3 : Env := { genSchedule := .ok { sessions := [] } }

/-- C3 witness state: "thursday 18:00-20:00" has both references. -/
def s3w : State := { messages := [.human "thursday 18:00-20:00"], awaiting_schedule_details := true }

theorem c3_witness :
    (scheduler_agent_node env3 s3w).2.genCalls = 1 ∧
    (applyPatch s3w (scheduler_agent_node env3 s3w).1).awaiting_schedule_confirmation = false ∧
    (applyPatch s3w (scheduler_agent_node env3 s3w).1).awaiting_schedule_details = false := by
  have h := (c3_details_phase env3 s3w rfl rfl rfl).2.2 (by decide) (by decide)
  exact ⟨h.1, (h.2.2.1 _ rfl).1, (h.2.2.1 _ rfl).2⟩

/-- A transcript with one human message but four messages in total. -/
def s4c : State := { messages := [.human "hi", .ai "a", .ai "b", .ai "c"] }

/-- C4 counterexample: a transcript with exactly one human message (but
four messages in total) is *not* rejected: the analyzer proceeds, calls
the weakness detector, and sets the scheduling-confirmation flag, where
the claim requires the minimum-transcript reply with no flags set. -/
theorem c4_counterexample :
    (s4c.messages.filter Msg.isHuman).length = 1 ∧
    (analyzer_agent_node env0 s4c).2.analyzeCalls = 1 ∧
    (analyzer_agent_node env0 s4c).1.awaiting_schedule_confirmation = some true ∧
    (analyzer_agent_node env0 s4c).1.messages ≠ [Msg.ai analyzerNeedMoreMsg] := by
  exact ⟨rfl, rfl, rfl, by decide⟩

/-- C4 (amended): the analyzer's minimum-transcript threshold is four
*total* messages (two exchanges), not two human messages; below it the
node returns the fixed "need more conversation" reply, performs no
detector call, produces no weak points, and leaves both scheduling flags
cleared. -/
theorem c4_short_transcript (env : Env) (s : State)
    (h : s.messages.length < 4) :
    (analyzer_agent_node env s).1.messages = [Msg.ai analyzerNeedMoreMsg] ∧
    (analyzer_agent_node env s).2 = {} ∧
    (analyzer_agent_node env s).1.weak_points = none ∧
    (analyzer_agent_node env s).1.awaiting_schedule_confirmation = some false ∧
    (analyzer_agent_node env s).1.awaiting_schedule_details = some false := by
  unfold analyzer_agent_node
  rw [if_pos h]
  exact ⟨rfl, rfl, rfl, rfl, rfl⟩

def s4w : State := { messages := [.human "hi"] }

/-- C4 witness: a one-message transcript takes the short-transcript branch. -/
theorem c4_witness :
    (analyzer_agent_node env0 s4w).1.messages = [Msg.ai analyzerNeedMoreMsg] ∧
    (analyzer_agent_node env0 s4w).1.awaiting_schedule_confirmation = some false :=
  ⟨(c4_short_transcript env0 s4w (by decide)).1,
   (c4_short_transcript env0 s4w (by decide)).2.2.2.1⟩

/-- The single shortened study session a 15-minute window produces. -/
def shortSession : Session :=
  { kind := "study"
    subject := "Math"
    task := "Learn core concepts - Math"
    startM := 540
    endM := 555
    durationNote := some "15 min session" }

/-- C5 counterexample: a 15-minute window (shorter than one 25-minute
Pomodoro session) does not fail — the planner silently returns a single
shortened study session instead of the typed "window too small" error. -/
theorem c5_counterexample :
    555 - 540 < DEFAULT_POMODORO_MINUTES ∧
    generate_schedule { start_time := 540, end_time := 555, subjects := ["Math"] } none =
      .ok { sessions := [shortSession] } := by
  exact ⟨by decide, rfl⟩

/-- Windows shorter than one Pomodoro, at the plan-builder level. -/
theorem build_small_window (p : Prefs)
    (hwin : p.end_time - p.start_time < DEFAULT_POMODORO_MINUTES) :
    (p.end_time ≤ p.start_time →
      build_pomodoro_plan p = .error "End time must be after start time.") ∧
    (p.start_time < p.end_time → p.end_time - p.start_time < 10 →
      build_pomodoro_plan p =
        .error "No Pomodoro blocks fit within the provided availability window.") ∧
    (p.start_time < p.end_time → 10 ≤ p.end_time - p.start_time →
      ∃ sess, build_pomodoro_plan p = .ok [sess] ∧ sess.kind = "study" ∧
        sess.startM = p.start_time ∧ sess.endM = p.end_time ∧
        sess.durationNote = some (toString (p.end_time - p.start_time) ++ " min session")) := by
  refine ⟨fun h => ?_, fun h h10 => ?_, fun h h10 => ?_⟩
  · unfold build_pomodoro_plan
    rw [if_pos h]
  all_goals {
    have hlt : ¬(p.start_time + DEFAULT_POMODORO_MINUTES ≤ p.end_time) := by
      unfold DEFAULT_POMODORO_MINUTES at hwin ⊢
      omega
    have hloop : pomodoroLoop p.subjects p.end_time (p.end_time + 1) p.start_time 0 []
        = if 10 ≤ p.end_time - p.start_time then
            [{ kind := "study"
               subject := p.subjects.getD (0 % p.subjects.length) ""
               task := generate_task_description (p.subjects.getD (0 % p.subjects.length) "")
                 (countOf (bumpCount [] (p.subjects.getD (0 % p.subjects.length) ""))
                   (p.subjects.getD (0 % p.subjects.length) ""))
               startM := p.start_time
               endM := p.end_time
               durationNote := some (toString (p.end_time - p.start_time) ++ " min session") }]
          else [] := by
      simp only [pomodoroLoop]
      rw [if_pos h, if_neg hlt]
    unfold build_pomodoro_plan
    rw [if_neg (by omega : ¬(p.end_time ≤ p.start_time)), hloop]
    first
    | (rw [if_neg (by omega : ¬(10 ≤ p.end_time - p.start_time))]
       rfl)
    | (rw [if_pos h10]
       exact ⟨_, rfl, rfl, rfl, rfl, rfl⟩)
  }

/-- C5 (amended): for any availability window shorter than one Pomodoro
session, `generate_schedule` never silently returns an empty or partial
plan: an empty or inverted window raises the "End time must be after start
time." error, a positive window under 10 minutes raises the typed "No
Pomodoro blocks fit within the provided availability window." error, and a
window of 10-24 minutes deliberately yields exactly one shortened study
session covering the whole window. -/
theorem c5_small_window (prefs : Prefs) (recs : Option (List WeakPoint))
    (_hsub : prefs.subjects ≠ [])
    (hwin : prefs.end_time - prefs.start_time < DEFAULT_POMODORO_MINUTES) :
    (prefs.end_time ≤ prefs.start_time →
      generate_schedule prefs recs = .error "End time must be after start time.") ∧
    (prefs.start_time < prefs.end_time → prefs.end_time - prefs.start_time < 10 →
      generate_schedule prefs recs =
        .error "No Pomodoro blocks fit within the provided availability window.") ∧
    (prefs.start_time < prefs.end_time → 10 ≤ prefs.end_time - prefs.start_time →
      ∃ sch sess, generate_schedule prefs recs = .ok sch ∧
        sch.sessions = [sess] ∧ sess.kind = "study" ∧
        sess.startM = prefs.start_time ∧ sess.endM = prefs.end_time) := by
  unfold generate_schedule
  rcases recs with _ | wps
  · dsimp only
    rcases build_small_window prefs hwin with ⟨b1, b2, b3⟩
    refine ⟨fun h => by rw [b1 h], fun h h10 => by rw [b2 h h10], fun h h10 => ?_⟩
    rcases b3 h h10 with ⟨sess, hb, hk, hs, he, _⟩
    rw [hb]
    exact ⟨_, sess, rfl, rfl, hk, hs, he⟩
  · dsimp only
    by_cases hw : wps.isEmpty
    · rw [if_pos hw]
      rcases build_small_window prefs hwin with ⟨b1, b2, b3⟩
      refine ⟨fun h => by rw [b1 h], fun h h10 => by rw [b2 h h10], fun h h10 => ?_⟩
      rcases b3 h h10 with ⟨sess, hb, hk, hs, he, _⟩
      rw [hb]
      exact ⟨_, sess, rfl, rfl, hk, hs, he⟩
    · rw [if_neg hw]
      have hwin2 : (prioritize_weak_topics prefs wps).end_time -
          (prioritize_weak_topics prefs wps).start_time < DEFAULT_POMODORO_MINUTES := hwin
      rcases build_small_window (prioritize_weak_topics prefs wps) hwin2 with ⟨b1, b2, b3⟩
      refine ⟨fun h => by rw [b1 h], fun h h10 => by rw [b2 h h10], fun h h10 => ?_⟩
      rcases b3 h h10 with ⟨sess, hb, hk, hs, he, _⟩
      rw [hb]
      exact ⟨_, sess, rfl, rfl, hk, hs, he⟩

/-- C5 witness: an 8-minute window raises the typed error. -/
theorem c5_witness :
    generate_schedule { start_time := 600, end_time := 608, subjects := ["Math"] } none =
      .error "No Pomodoro blocks fit within the provided availability window." :=
  (c5_small_window { start_time := 600, end_time := 608, subjects := ["Math"] } none
    (by decide) (by decide)).2.1 (by decide) (by decide)

/-- A previously generated, not-yet-synced schedule sitting in state. -/
def sched1 : Schedule :=
  { sessions := [{ kind := "study"
                   subject := "Math"
                   task := "Learn core concepts - Math"
                   startM := 540
                   endM := 565 }] }

/-- Confirmation-phase state holding an unsynced schedule and reply "yes". -/
def s6c : State :=
  { messages := [.human "yes"]
    awaiting_schedule_confirmation := true
    generated_schedule := some sched1 }

/-- C6 counterexample: a schedule exists in state and the reply "yes" reads
as affirmative, yet with the confirmation sub-dialogue open the handler
neither syncs nor generates — it answers with the details prompt.  The
sync-confirmation check is therefore not performed on *every* scheduler
turn. -/
theorem c6_counterexample :
    s6c.generated_schedule.isSome = true ∧
    affirmative_words_sync.any (fun w => substrOf w (pyLower (schedUserInput s6c))) = true ∧
    (scheduler_agent_node env0 s6c).2.syncCalls = 0 ∧
    (scheduler_agent_node env0 s6c).2.genCalls = 0 ∧
    (scheduler_agent_node env0 s6c).1.messages = [Msg.ai schedDetailsPrompt] := by
  decide

/-- C6 (amended): on scheduler turns where neither sub-dialogue gate
intercepts the reply — the confirmation flag is clear, and the details
flag is clear or the reply passes the day+time gate without a negative
word — if a generated schedule exists in state and the message contains a
sync-affirmative word, the handler syncs the existing schedule exactly
once and never reaches schedule generation — the sync check precedes
generation. -/
theorem c6_sync_before_generate (env : Env) (s : State)
    (hconf : s.awaiting_schedule_confirmation = false)
    (hgate : s.awaiting_schedule_details = false ∨
      (isNegative (pyStrip (pyLower (schedUserInput s))) = false ∧
       (hasDayReference (pyStrip (pyLower (schedUserInput s))) &&
          hasTimeReference (pyStrip (pyLower (schedUserInput s)))) = true))
    (hsched : s.generated_schedule.isSome = true)
    (haff : affirmative_words_sync.any (fun w => substrOf w (pyLower (schedUserInput s))) = true) :
    (scheduler_agent_node env s).2.syncCalls = 1 ∧
    (scheduler_agent_node env s).2.genCalls = 0 := by
  dsimp only [scheduler_agent_node, schedulerMainFlow]
  rcases hgate with hdet | ⟨hn, hdt⟩
  · rw [hconf, hdet, hsched, haff]
    cases env.syncResult <;> exact ⟨rfl, rfl⟩
  · rw [hconf, hn, hdt, hsched, haff]
    simp only [Bool.not_true, Bool.and_false]
    cases env.syncResult <;> exact ⟨rfl, rfl⟩

/-- Details phase open, a reply passing the day+time gate with no negative
word, and an unsynced schedule pending. -/
def s6w : State :=
  { messages := [.human "yes thursday 18:00-20:00"]
    awaiting_schedule_details := true
    generated_schedule := some sched1 }

/-- C6 witness: with the details gate passed (day and time present, no
negative word) and a pending schedule, the affirmative reply syncs the
stored plan instead of generating a new one. -/
theorem c6_witness :
    (scheduler_agent_node env0 s6w).2.syncCalls = 1 ∧
    (scheduler_agent_node env0 s6w).2.genCalls = 0 :=
  c6_sync_before_generate env0 s6w rfl (Or.inr ⟨by decide, by decide⟩) rfl (by decide)


/-- C9: the exit detector signals exit only when the keyword pre-filter
hits and the precise model check answers END; with no keyword hit the
model is never called; and with a classifier stubbed to CONTINUE the
detector never makes the tutor node clear `tutor_session_active`. -/
theorem c9_exit_detector (env : Env) (messages : List Msg) (s : State) :
    ((detect_tutor_exit_intent env messages).1 = true →
      tutorExitKeywordHit messages = true ∧
      ∃ r, env.exitClassify = .ok r ∧ pyUpper (pyStrip r) = "END") ∧
    (tutorExitKeywordHit messages = false →
      detect_tutor_exit_intent env messages = (false, 0)) ∧
    (env.exitClassify = .ok "CONTINUE" →
      (detect_tutor_exit_intent env messages).1 = false ∧
      (s.tutor_session_active = true → (lastHumanMsg s.messages).isSome = true →
        (applyPatch s (tutor_agent_node env s).1).tutor_session_active = true)) := by
  refine ⟨fun hd => ?_, fun hk => ?_, fun hstub => ⟨?_, fun hact hsome => ?_⟩⟩
  · unfold detect_tutor_exit_intent at hd
    by_cases hlen : messages.length < 2
    · rw [if_pos hlen] at hd
      simp at hd
    · rw [if_neg hlen] at hd
      dsimp only at hd
      cases hlm : lastHumanMsg (takeLast 4 messages) with
      | none =>
        rw [hlm] at hd
        simp at hd
      | some m =>
        rw [hlm] at hd
        dsimp only at hd
        by_cases hkw : exit_keywords.any (fun k => substrOf k (pyLower m.content)) = true
        · refine ⟨by unfold tutorExitKeywordHit; rw [hlm]; exact hkw, ?_⟩
          rw [if_pos hkw] at hd
          cases hc : env.exitClassify with
          | ok r =>
            rw [hc] at hd
            dsimp only at hd
            exact ⟨r, rfl, eq_of_beq hd⟩
          | error e =>
            rw [hc] at hd
            simp at hd
        · rw [if_neg hkw] at hd
          simp at hd
  · unfold detect_tutor_exit_intent
    by_cases hlen : messages.length < 2
    · rw [if_pos hlen]
    · rw [if_neg hlen]
      dsimp only
      unfold tutorExitKeywordHit at hk
      cases hlm : lastHumanMsg (takeLast 4 messages) with
      | none => rfl
      | some m =>
        rw [hlm] at hk
        dsimp only at hk ⊢
        rw [hk]
        rfl
  · unfold detect_tutor_exit_intent
    by_cases hlen : messages.length < 2
    · rw [if_pos hlen]
    · rw [if_neg hlen]
      dsimp only
      cases hlm : lastHumanMsg (takeLast 4 messages) with
      | none => rfl
      | some m =>
        dsimp only
        by_cases hkw : exit_keywords.any (fun k => substrOf k (pyLower m.content)) = true
        · rw [if_pos hkw, hstub]
          rfl
        · rw [if_neg hkw]
  · rcases Option.isSome_iff_exists.mp hsome with ⟨m, hm⟩
    unfold tutor_agent_node
    rw [hm]
    dsimp only
    by_cases hoff : (!env.context.isEmpty &&
        off_topic_keywords.any (fun k => substrOf k (pyLower m.content))) = true
    · rw [if_pos hoff]
      dsimp only [applyPatch]
      exact hact
    · rw [if_neg hoff]
      have hdet0 : (detect_tutor_exit_intent env s.messages).1 = false := by
        unfold detect_tutor_exit_intent
        by_cases hlen : s.messages.length < 2
        · rw [if_pos hlen]
        · rw [if_neg hlen]
          dsimp only
          cases hlm : lastHumanMsg (takeLast 4 s.messages) with
          | none => rfl
          | some m2 =>
            dsimp only
            by_cases hkw : exit_keywords.any (fun k => substrOf k (pyLower m2.content)) = true
            · rw [if_pos hkw, hstub]
              rfl
            · rw [if_neg hkw]
      dsimp only [applyPatch]
      rw [hdet0]
      rfl

/-- Stubbed-CONTINUE witness: trigger words present, the precise check runs
but answers CONTINUE, and tutoring stays active. -/
def env9 : Env := { exitClassify := .ok "CONTINUE" }

def msgs9 : List Msg :=
  [.human "what is a derivative?", .ai "it measures change", .human "thanks, i am done, bye"]

def s9 : State := { messages := msgs9, tutor_session_active := true }

/-- C9 witness: trigger words with a CONTINUE stub leave tutoring active. -/
theorem c9_witness :
    tutorExitKeywordHit msgs9 = true ∧
    (detect_tutor_exit_intent env9 msgs9).1 = false ∧
    (applyPatch s9 (tutor_agent_node env9 s9).1).tutor_session_active = true := by
  have h := (c9_exit_detector env9 msgs9 s9).2.2 rfl
  exact ⟨by decide, h.1, h.2 rfl (by decide)⟩

end StudyPal
